import Mathlib

/-
  Verification development for the SkyTube repository (src/skytube.py).

  The Python program polls a YouTube channel feed and republishes new videos
  to Bluesky, keeping a persisted set of already-announced video ids.  The
  definitions below are a shallow embedding of the functions the claims talk
  about: `load_seen_videos` / `save_seen_videos` (the seen-item store),
  `check_for_new_videos` (the monitoring cycle), `build_database`
  (bulk-registration mode), `post_to_bluesky` together with
  `get_video_thumbnail` and `extract_video_id` (the publisher), and the
  pagination loop of `get_youtube_feed_api` (the API feed source).

  External effects are made observable: file-system operations become an
  `FsAction` trace, publisher invocations are logged in a `published` list,
  save calls in a `saves` list, and network outcomes are supplied by the
  environment (a `Bool`-valued oracle for publish success, download-outcome
  functions for thumbnails, a page list for the paginated API).
-/

namespace SkyTube

/-- A feed entry as handled by the Python code: a dict accessed with
`entry.get(key, default)`.  Absent keys are `none`. -/
structure Entry where
  yt_videoid : Option String
  id : Option String
  title : Option String
  link : Option String
deriving DecidableEq, Repr

/-- Python `entry.get("yt_videoid", entry.get("id", ""))`. -/
def entryVideoId (e : Entry) : String := e.yt_videoid.getD (e.id.getD (""))

/-- Python `entry.get("title", "New Video")` as used in `check_for_new_videos`. -/
def entryTitle (e : Entry) : String := e.title.getD ("New Video")

/-- Python `entry.get("link", "")`. -/
def entryLink (e : Entry) : String := e.link.getD ("")

/-- Observable state threaded through a monitoring cycle or a bulk
registration: the in-memory seen set, the list of `save_seen_videos` calls
(each recording the full set passed to it), and the list of video ids for
which `post_to_bluesky` was invoked. -/
structure CycleState where
  seen : Finset String
  saves : List (Finset String)
  published : List String
deriving DecidableEq

/-- One iteration of the `for entry in entries` loop of
`check_for_new_videos` (src/skytube.py lines 1385-1425): skip if the id is
already seen, skip on missing id or url, otherwise invoke the publisher;
on success add the id to the seen set and save immediately. -/
def processEntry (f : String → String → Bool) (st : CycleState) (e : Entry) : CycleState :=
  if entryVideoId e ∈ st.seen then st
  else if entryVideoId e = ("") then st
  else if entryLink e = ("") then st
  else if f (entryTitle e) (entryLink e) then
    ⟨insert (entryVideoId e) st.seen,
     st.saves ++ [insert (entryVideoId e) st.seen],
     st.published ++ [entryVideoId e]⟩
  else
    ⟨st.seen, st.saves, st.published ++ [entryVideoId e]⟩

/-- The entry loop of `check_for_new_videos`, processing entries in order. -/
def runEntries (f : String → String → Bool) (st : CycleState) : List Entry → CycleState
  | [] => st
  | e :: rest => runEntries f (processEntry f st e) rest

/-- Starting state of a cycle: the seen set loaded so far, no saves and no
publisher invocations yet. -/
def initState (seen0 : Finset String) : CycleState := ⟨seen0, [], []⟩

/-- One monitoring cycle (`check_for_new_videos`, src/skytube.py lines
1351-1434): if the fetch returned nothing, return the seen set unchanged;
otherwise run the entry loop.  `f` gives the outcome of each
`post_to_bluesky(title, url)` call. -/
def check_for_new_videos (f : String → String → Bool) (entries : List Entry)
    (seen0 : Finset String) : CycleState :=
  if entries.isEmpty then initState seen0
  else runEntries f (initState seen0) entries

/-- One iteration of the registration loop of `build_database`
(src/skytube.py lines 1319-1336): add the id when it is non-empty and not
yet seen; never publish, never save inside the loop. -/
def buildStep (st : CycleState) (e : Entry) : CycleState :=
  if entryVideoId e ≠ ("") ∧ entryVideoId e ∉ st.seen then
    ⟨insert (entryVideoId e) st.seen, st.saves, st.published⟩
  else st

/-- The registration loop of `build_database`. -/
def buildLoop (st : CycleState) : List Entry → CycleState
  | [] => st
  | e :: rest => buildLoop (buildStep st e) rest

/-- Bulk-registration mode (`build_database`, src/skytube.py lines
1279-1348): on an empty fetch it returns without saving; otherwise it
registers every new id and saves the updated set once at the end.  It never
invokes the publisher. -/
def build_database (entries : List Entry) (seen0 : Finset String) : CycleState :=
  if entries.isEmpty then ⟨seen0, [], []⟩
  else
    ⟨(buildLoop ⟨seen0, [], []⟩ entries).seen,
     (buildLoop ⟨seen0, [], []⟩ entries).saves ++ [(buildLoop ⟨seen0, [], []⟩ entries).seen],
     (buildLoop ⟨seen0, [], []⟩ entries).published⟩

/-- A file-system action performed by the seen-item store. -/
inductive FsAction
  | write (path : String) (contents : List String)
  | rename (src dst : String)
deriving DecidableEq, Repr

/-- True exactly on the `rename` action. -/
def FsAction.isRename : FsAction → Bool
  | FsAction.rename _ _ => true
  | _ => false

/-- File-system trace of `save_seen_videos` (src/skytube.py lines 662-696):
the function opens the store file itself for writing and dumps the listed
set into it — a single direct in-place write, with no temporary file and no
rename. -/
def save_seen_videos (seen_file : String) (seen_videos : List String) : List FsAction :=
  [FsAction.write seen_file seen_videos]

/-- The content the store file can hold when `load_seen_videos` reads it:
the file is missing, its text is not valid JSON, it is a JSON list of
strings, or it is valid JSON of some other shape (object, number, ...). -/
inductive StoreContent
  | missing
  | invalidJson
  | jsonList (xs : List String)
  | jsonOther
deriving DecidableEq, Repr

/-- `load_seen_videos` (src/skytube.py lines 602-659): missing file gives
the empty set; a JSON list gives the set of its elements; valid JSON that is
not a list gives the empty set with no file-system action; invalid JSON
gives the empty set after renaming the file aside to
`<file>.corrupt.bak`. -/
def load_seen_videos (seen_file : String) (c : StoreContent) :
    Finset String × List FsAction :=
  match c with
  | StoreContent.missing => (∅, [])
  | StoreContent.invalidJson =>
      (∅, [FsAction.rename seen_file (seen_file ++ (".corrupt.bak"))])
  | StoreContent.jsonList xs => (xs.toFinset, [])
  | StoreContent.jsonOther => (∅, [])

/-- One piece of the configured post template, as Python `str.format` sees
it: literal text, a named placeholder `\x7bname\x7d`, or a positional or
auto-numbered placeholder `\x7b0\x7d` / `\x7b\x7d`. -/
inductive TItem
  | lit (s : String)
  | field (name : String)
  | pos (k : Nat)
deriving DecidableEq, Repr

/-- Error raised by Python `template.format(title=..., url=...)`: `KeyError`
for an unknown named placeholder, `IndexError` for a positional placeholder
(no positional arguments are supplied). -/
inductive FmtError
  | keyError (name : String)
  | indexError
deriving DecidableEq, Repr

/-- Substitution of a single template item by
`post_template.format(title=video_title, url=video_url)`. -/
def renderItem (title url : String) : TItem → Except FmtError String
  | TItem.lit s => Except.ok s
  | TItem.field n =>
      if n = ("title") then Except.ok title
      else if n = ("url") then Except.ok url
      else Except.error (FmtError.keyError n)
  | TItem.pos _ => Except.error FmtError.indexError

/-- Python `str.format` over the whole template: items are substituted left
to right and the first failing item raises. -/
def renderTemplate (title url : String) : List TItem → Except FmtError String
  | [] => Except.ok ("")
  | it :: rest =>
    match renderItem title url it with
    | Except.error e => Except.error e
    | Except.ok s =>
      match renderTemplate title url rest with
      | Except.error e => Except.error e
      | Except.ok t2 => Except.ok (s ++ t2)

/-- The fixed fallback post text used when the template has an unknown named
placeholder (src/skytube.py line 1207). -/
def fallbackText (title : String) : String := ("🎬 New video: ") ++ title

/-- True on a positional or auto-numbered placeholder. -/
def TItem.isPos : TItem → Bool
  | TItem.pos _ => true
  | _ => false

/-- True on a named placeholder other than `title` and `url`. -/
def TItem.isUnknownField : TItem → Bool
  | TItem.field n =>
      if n = ("title") then false else if n = ("url") then false else true
  | _ => false

/-- Outcome of one thumbnail download (`requests.get` on a candidate URL):
an exception (timeout, connection error, HTTP error, ...) or a payload of a
given byte size. -/
inductive DlOutcome
  | fail
  | ok (size : Nat)
deriving DecidableEq, Repr

/-- Network environment of the publisher: the download outcome for each
thumbnail URL and whether `client.upload_blob` succeeds. -/
structure NetEnv where
  dl : String → DlOutcome
  uploadOk : Bool

/-- True when the first list is an initial segment of the second. -/
def leadsWith : List Char → List Char → Bool
  | [], _ => true
  | _ :: _, [] => false
  | a :: as, b :: bs => a = b && leadsWith as bs

/-- Scans for the first occurrence of `sep`: returns the characters before
it and, when found, the characters after it. -/
def splitAtSep (sep : List Char) : List Char → List Char × Option (List Char)
  | [] => ([], none)
  | c :: cs =>
    if leadsWith sep (c :: cs) then ([], some ((c :: cs).drop sep.length))
    else (c :: (splitAtSep sep cs).1, (splitAtSep sep cs).2)

/-- Fuel-driven splitting on every occurrence of `sep`, left to right. -/
def pySplitAux (sep : List Char) : Nat → List Char → List (List Char)
  | 0, s => [s]
  | n + 1, s =>
    match splitAtSep sep s with
    | (bef, none) => [bef]
    | (bef, some rest) => bef :: pySplitAux sep n rest

/-- Python `s.split(sep)` for a non-empty separator: the list of pieces
between the non-overlapping occurrences of `sep`.  The fuel `s.length`
suffices because each occurrence consumes at least one character. -/
def pySplit (sep s : String) : List String :=
  (pySplitAux sep.toList s.toList.length s.toList).map String.mk

/-- `extract_video_id` (src/skytube.py lines 1009-1045): split on `v=` and
then on `&`, else split on `youtu.be/` and then on `?`, else `None`.  The
`in` containment tests of the Python code are equivalent to the split
producing more than one piece. -/
def extract_video_id (video_url : String) : Option String :=
  if (pySplit ("v=") video_url).length > 1 then
    some ((pySplit ("&") ((pySplit ("v=") video_url)[1]?.getD (""))).headD (""))
  else if (pySplit ("youtu.be/") video_url).length > 1 then
    some ((pySplit ("?") ((pySplit ("youtu.be/") video_url)[1]?.getD (""))).headD (""))
  else none

/-- The three candidate thumbnail URLs, highest resolution first
(src/skytube.py lines 1076-1080). -/
def thumbnail_urls (video_id : String) : List String :=
  [("https://img.youtube.com/vi/") ++ video_id ++ ("/maxresdefault.jpg"),
   ("https://img.youtube.com/vi/") ++ video_id ++ ("/hqdefault.jpg"),
   ("https://img.youtube.com/vi/") ++ video_id ++ ("/mqdefault.jpg")]

/-- The candidate loop of `get_video_thumbnail` (src/skytube.py lines
1083-1137): a failed download moves to the next candidate; a payload of at
most 1000 bytes is rejected as a placeholder and moves to the next
candidate; a large enough payload is uploaded — upload success returns the
blob, upload failure returns `none` at once. -/
def thumbLoop (net : NetEnv) : List String → Option Unit
  | [] => none
  | u :: rest =>
    match net.dl u with
    | DlOutcome.fail => thumbLoop net rest
    | DlOutcome.ok size =>
      if size > 1000 then (if net.uploadOk then some () else none)
      else thumbLoop net rest

/-- `get_video_thumbnail` (src/skytube.py lines 1048-1137): no extractable
video id gives `none`, otherwise try the three candidate URLs. -/
def get_video_thumbnail (net : NetEnv) (video_url : String) : Option Unit :=
  match extract_video_id video_url with
  | none => none
  | some vid => if vid = ("") then none else thumbLoop net (thumbnail_urls vid)

/-- The submission `client.send_post` receives: the post text and whether a
thumbnail blob was attached to the embed card. -/
structure SentPost where
  text : String
  hasThumb : Bool
deriving DecidableEq, Repr

/-- Environment of one `post_to_bluesky` call: configured credentials and
template, whether `client.login` succeeds, the network environment for the
thumbnail step, and whether `client.send_post` succeeds. -/
structure PublishEnv where
  handle : String
  password : String
  post_template : List TItem
  loginOk : Bool
  net : NetEnv
  sendPostOk : Bool

/-- Result of `post_to_bluesky`: the returned boolean, and the submission
passed to `client.send_post` (`none` when the call returned before
submitting). -/
structure PublishResult where
  success : Bool
  sent : Option SentPost
deriving DecidableEq, Repr

/-- The tail of `post_to_bluesky` after the post text is fixed: resolve the
thumbnail, build the embed with or without it, submit.  The returned boolean
is `True` exactly when `send_post` did not raise; the thumbnail outcome only
decides whether the embed carries an image. -/
def postAfterRender (env : PublishEnv) (post_text video_url : String) : PublishResult :=
  ⟨env.sendPostOk, some ⟨post_text, (get_video_thumbnail env.net video_url).isSome⟩⟩

/-- `post_to_bluesky` (src/skytube.py lines 1140-1276): empty handle or
password returns `False`; a failed login returns `False`; template
formatting falls back to the default text on `KeyError` but an `IndexError`
escapes to the outer handler and returns `False`; otherwise the post is
submitted and the result is the submission outcome. -/
def post_to_bluesky (env : PublishEnv) (video_title video_url : String) : PublishResult :=
  if env.handle = ("") then ⟨false, none⟩
  else if env.password = ("") then ⟨false, none⟩
  else if env.loginOk then
    match renderTemplate video_title video_url env.post_template with
    | Except.ok post_text => postAfterRender env post_text video_url
    | Except.error (FmtError.keyError _) =>
        postAfterRender env (fallbackText video_title) video_url
    | Except.error FmtError.indexError => ⟨false, none⟩
  else ⟨false, none⟩

/-- The authentication step of `post_to_bluesky`: non-empty handle and
password and a successful login. -/
def authB (env : PublishEnv) : Bool :=
  if env.handle = ("") then false
  else if env.password = ("") then false
  else env.loginOk

/-- One item of a `playlistItems` API response page.  `videoId` is the
resolved id (`contentDetails.videoId` or `snippet.resourceId.videoId`),
empty when neither is present. -/
structure ApiItem where
  videoId : String
  title : Option String
deriving DecidableEq, Repr

/-- One API response page: its item list and whether the response carries a
`nextPageToken`. -/
structure Page where
  items : List ApiItem
  hasNext : Bool
deriving DecidableEq, Repr

/-- Why the pagination loop of `get_youtube_feed_api` stopped:
the `while` condition found the accumulated count at the maximum; a
response carried an empty item list (`if not items: break`); a response
carried no `nextPageToken`; or the modelled provider ran out of pages. -/
inductive StopReason
  | maxReached
  | emptyItems
  | noToken
  | providerExhausted
deriving DecidableEq, Repr

/-- Result of the paginated fetch: the `maxResults` value of each page
request made, the accumulated entries, and why the loop stopped. -/
structure ApiFetchResult where
  requests : List Nat
  entries : List Entry
  reason : StopReason
deriving DecidableEq, Repr

/-- Conversion of an API item to the RSS-compatible entry shape
(src/skytube.py lines 928-950); items without a resolvable video id are
skipped. -/
def apiItemToEntry (it : ApiItem) : Option Entry :=
  if it.videoId = ("") then none
  else some ⟨some it.videoId, some it.videoId,
             some (it.title.getD ("Unknown Title")),
             some (("https://www.youtube.com/watch?v=") ++ it.videoId)⟩

/-- Prepends a page request to a fetch result. -/
def addReq (q : Nat) (r : ApiFetchResult) : ApiFetchResult :=
  ⟨q :: r.requests, r.entries, r.reason⟩

/-- The pagination loop of `get_youtube_feed_api` (src/skytube.py lines
812-969): while fewer than `m` entries are accumulated, request
`min(remaining, 50)` items; an empty item list breaks before accumulating;
otherwise the page's resolvable items are appended and the loop continues
exactly when the response carries a `nextPageToken`. -/
def apiLoop (m : Nat) : List Page → List Entry → ApiFetchResult
  | [], acc =>
      if acc.length < m then ⟨[], acc, StopReason.providerExhausted⟩
      else ⟨[], acc, StopReason.maxReached⟩
  | p :: rest, acc =>
      if acc.length < m then
        if p.items.isEmpty then
          ⟨[min (m - acc.length) 50], acc, StopReason.emptyItems⟩
        else if p.hasNext then
          addReq (min (m - acc.length) 50)
            (apiLoop m rest (acc ++ p.items.filterMap apiItemToEntry))
        else
          ⟨[min (m - acc.length) 50], acc ++ p.items.filterMap apiItemToEntry,
           StopReason.noToken⟩
      else ⟨[], acc, StopReason.maxReached⟩

/-- `get_youtube_feed_api` (src/skytube.py lines 754-969) restricted to the
fetch loop: the configured `api_max_results` falls back to 15 when it is
below 1, then the pagination loop runs with an empty accumulator. -/
def get_youtube_feed_api (api_max_results : Int) (pages : List Page) : ApiFetchResult :=
  apiLoop (if api_max_results < 1 then 15 else api_max_results.toNat) pages []

/-- Concrete feed entry with id `v1`. -/
def entryV1 : Entry := ⟨some ("v1"), none, some ("First"), some ("u1")⟩

/-- Concrete feed entry with id `v2`. -/
def entryV2 : Entry := ⟨some ("v2"), none, some ("Second"), some ("u2")⟩

/-- Publish oracle on which every `post_to_bluesky` call succeeds. -/
def alwaysPost : String → String → Bool := fun _ _ => true

/-- Publish oracle on which every `post_to_bluesky` call fails. -/
def neverPost : String → String → Bool := fun _ _ => false

/-- Network environment where every thumbnail download raises. -/
def failNet : NetEnv := ⟨fun _ => DlOutcome.fail, true⟩

/-- Publisher environment with valid credentials, template `\x7btitle\x7d`,
successful login and submission. -/
def envTitle : PublishEnv := ⟨("h"), ("p"), [TItem.field ("title")], true, failNet, true⟩

/-- Same as `envTitle` except for the network environment of the thumbnail
step. -/
def envTitleAltNet : PublishEnv :=
  ⟨("h"), ("p"), [TItem.field ("title")], true, ⟨fun _ => DlOutcome.ok 5000, false⟩, true⟩

/-- Publisher environment whose template is the single positional
placeholder `\x7b0\x7d`; everything else is set up to succeed. -/
def envPosTemplate : PublishEnv := ⟨("h"), ("p"), [TItem.pos 0], true, failNet, true⟩

/-- Publisher environment whose template is the unknown named placeholder
`\x7bfoo\x7d`; everything else is set up to succeed. -/
def envUnknownField : PublishEnv := ⟨("h"), ("p"), [TItem.field ("foo")], true, failNet, true⟩

/-- An API response page with no items but a `nextPageToken`. -/
def emptyPage : Page := ⟨[], true⟩

/-- An API response page with one item and no `nextPageToken`. -/
def lastPage : Page := ⟨[⟨("v1"), some ("T")⟩], false⟩

/-- An API response page with one item and a `nextPageToken`. -/
def onePageMore : Page := ⟨[⟨("v1"), none⟩], true⟩

-- Helper lemmas about the monitoring-cycle loop.

lemma processEntry_seen_mono (f : String → String → Bool) (st : CycleState) (e : Entry) :
    st.seen ⊆ (processEntry f st e).seen := by
  unfold processEntry
  by_cases h1 : entryVideoId e ∈ st.seen
  · simp [h1]
  · by_cases h2 : entryVideoId e = ("")
    · simp [h1, h2]
    · by_cases h3 : entryLink e = ("")
      · simp [h1, h2, h3]
      · by_cases h4 : f (entryTitle e) (entryLink e) = true
        · simp [h1, h2, h3, h4, Finset.subset_insert]
        · simp [h1, h2, h3, h4]

lemma processEntry_not_published (f : String → String → Bool) (st : CycleState) (e : Entry)
    (v : String) (hv : v ∈ st.seen) (hp : v ∉ st.published) :
    v ∉ (processEntry f st e).published := by
  unfold processEntry
  by_cases h1 : entryVideoId e ∈ st.seen
  · simpa [h1] using hp
  · have hne : v ≠ entryVideoId e := by
      intro h
      exact h1 (h ▸ hv)
    by_cases h2 : entryVideoId e = ("")
    · simpa [h1, h2] using hp
    · by_cases h3 : entryLink e = ("")
      · simpa [h1, h2, h3] using hp
      · by_cases h4 : f (entryTitle e) (entryLink e) = true
        · simp [h1, h2, h3, h4, List.mem_append]
          exact ⟨hp, hne⟩
        · simp [h1, h2, h3, h4, List.mem_append]
          exact ⟨hp, hne⟩

lemma runEntries_keeps (f : String → String → Bool) (v : String) :
    ∀ (entries : List Entry) (st : CycleState), v ∈ st.seen → v ∉ st.published →
      v ∈ (runEntries f st entries).seen ∧ v ∉ (runEntries f st entries).published := by
  intro entries
  induction entries with
  | nil => exact fun st hv hp => ⟨hv, hp⟩
  | cons e rest ih =>
    intro st hv hp
    exact ih (processEntry f st e) (processEntry_seen_mono f st e hv)
      (processEntry_not_published f st e v hv hp)

lemma runEntries_append (f : String → String → Bool) :
    ∀ (l1 l2 : List Entry) (st : CycleState),
      runEntries f st (l1 ++ l2) = runEntries f (runEntries f st l1) l2 := by
  intro l1
  induction l1 with
  | nil => intro l2 st; rfl
  | cons e rest ih => intro l2 st; exact ih l2 (processEntry f st e)

lemma processEntry_invokes (f : String → String → Bool) (st : CycleState) (e : Entry)
    (h1 : entryVideoId e ∉ st.seen) (h2 : entryVideoId e ≠ (""))
    (h3 : entryLink e ≠ ("")) :
    entryVideoId e ∈ (processEntry f st e).published := by
  unfold processEntry
  by_cases h4 : f (entryTitle e) (entryLink e) = true
  · simp [h1, h2, h3, h4, List.mem_append]
  · simp [h1, h2, h3, h4, List.mem_append]

lemma runEntries_published_mono (f : String → String → Bool) (v : String) :
    ∀ (entries : List Entry) (st : CycleState), v ∈ st.published →
      v ∈ (runEntries f st entries).published := by
  intro entries
  induction entries with
  | nil => exact fun st h => h
  | cons e rest ih =>
    intro st h
    refine ih (processEntry f st e) ?_
    unfold processEntry
    by_cases h1 : entryVideoId e ∈ st.seen
    · simpa [h1] using h
    · by_cases h2 : entryVideoId e = ("")
      · simpa [h1, h2] using h
      · by_cases h3 : entryLink e = ("")
        · simpa [h1, h2, h3] using h
        · by_cases h4 : f (entryTitle e) (entryLink e) = true
          · simp [h1, h2, h3, h4, List.mem_append, h]
          · simp [h1, h2, h3, h4, List.mem_append, h]

lemma runEntries_seen_mono (f : String → String → Bool) :
    ∀ (entries : List Entry) (st : CycleState), st.seen ⊆ (runEntries f st entries).seen := by
  intro entries
  induction entries with
  | nil => exact fun st => Finset.Subset.refl _
  | cons e rest ih =>
    intro st
    exact (processEntry_seen_mono f st e).trans (ih (processEntry f st e))

lemma processEntry_saves_sup (f : String → String → Bool) (st : CycleState) (e : Entry) :
    ∀ s ∈ (processEntry f st e).saves, s ∈ st.saves ∨ st.seen ⊆ s := by
  intro s hs
  unfold processEntry at hs
  by_cases h1 : entryVideoId e ∈ st.seen
  · simp [h1] at hs; exact Or.inl hs
  · by_cases h2 : entryVideoId e = ("")
    · simp [h1, h2] at hs; exact Or.inl hs
    · by_cases h3 : entryLink e = ("")
      · simp [h1, h2, h3] at hs; exact Or.inl hs
      · by_cases h4 : f (entryTitle e) (entryLink e) = true
        · simp [h1, h2, h3, h4, List.mem_append] at hs
          rcases hs with hs | hs
          · exact Or.inl hs
          · exact Or.inr (hs ▸ Finset.subset_insert _ _)
        · simp [h1, h2, h3, h4] at hs; exact Or.inl hs

lemma runEntries_saves_sup (f : String → String → Bool) :
    ∀ (entries : List Entry) (st : CycleState) (s : Finset String),
      s ∈ (runEntries f st entries).saves → s ∈ st.saves ∨ st.seen ⊆ s := by
  intro entries
  induction entries with
  | nil => exact fun st s hs => Or.inl hs
  | cons e rest ih =>
    intro st s hs
    rcases ih (processEntry f st e) s hs with h | h
    · rcases processEntry_saves_sup f st e s h with h2 | h2
      · exact Or.inl h2
      · exact Or.inr h2
    · exact Or.inr ((processEntry_seen_mono f st e).trans h)

-- Helper lemmas about the bulk-registration loop.

lemma buildStep_seen_mono (st : CycleState) (e : Entry) :
    st.seen ⊆ (buildStep st e).seen := by
  unfold buildStep
  by_cases h : entryVideoId e ≠ ("") ∧ entryVideoId e ∉ st.seen
  · simp [h, Finset.subset_insert]
  · simp [h]

lemma buildLoop_seen_mono :
    ∀ (entries : List Entry) (st : CycleState), st.seen ⊆ (buildLoop st entries).seen := by
  intro entries
  induction entries with
  | nil => exact fun st => Finset.Subset.refl _
  | cons e rest ih =>
    intro st
    exact (buildStep_seen_mono st e).trans (ih (buildStep st e))

lemma buildStep_saves_eq (st : CycleState) (e : Entry) :
    (buildStep st e).saves = st.saves := by
  unfold buildStep
  by_cases h : entryVideoId e ≠ ("") ∧ entryVideoId e ∉ st.seen
  · simp [h]
  · simp [h]

lemma buildLoop_saves_eq :
    ∀ (entries : List Entry) (st : CycleState), (buildLoop st entries).saves = st.saves := by
  intro entries
  induction entries with
  | nil => exact fun st => rfl
  | cons e rest ih =>
    intro st
    rw [buildLoop, ih (buildStep st e), buildStep_saves_eq]

-- Helper lemmas about template rendering and publishing.

lemma renderTemplate_unknown (t u : String) :
    ∀ tmpl : List TItem, tmpl.any TItem.isPos = false →
      tmpl.any TItem.isUnknownField = true →
      ∃ n, renderTemplate t u tmpl = Except.error (FmtError.keyError n) := by
  intro tmpl
  induction tmpl with
  | nil => intro _ h; simp at h
  | cons it rest ih =>
    intro hpos hunk
    rw [List.any_cons, Bool.or_eq_false_iff] at hpos
    rw [List.any_cons, Bool.or_eq_true] at hunk
    cases it with
    | lit s =>
      have hrest : rest.any TItem.isUnknownField = true := by
        rcases hunk with h | h
        · simp [TItem.isUnknownField] at h
        · exact h
      obtain ⟨n, hr⟩ := ih hpos.2 hrest
      exact ⟨n, by simp [renderTemplate, renderItem, hr]⟩
    | field name =>
      by_cases h1 : name = ("title")
      · have hrest : rest.any TItem.isUnknownField = true := by
          rcases hunk with h | h
          · simp [TItem.isUnknownField, h1] at h
          · exact h
        obtain ⟨n, hr⟩ := ih hpos.2 hrest
        exact ⟨n, by simp [renderTemplate, renderItem, h1, hr]⟩
      · by_cases h2 : name = ("url")
        · have hrest : rest.any TItem.isUnknownField = true := by
            rcases hunk with h | h
            · simp [TItem.isUnknownField, h1, h2] at h
            · exact h
          obtain ⟨n, hr⟩ := ih hpos.2 hrest
          exact ⟨n, by simp [renderTemplate, renderItem, h1, h2, hr]⟩
        · exact ⟨name, by simp [renderTemplate, renderItem, h1, h2]⟩
    | pos k => simp [TItem.isPos] at hpos

lemma authB_parts (env : PublishEnv) (ha : authB env = true) :
    env.handle ≠ ("") ∧ env.password ≠ ("") ∧ env.loginOk = true := by
  unfold authB at ha
  by_cases hh : env.handle = ("")
  · simp [hh] at ha
  · by_cases hpw : env.password = ("")
    · simp [hh, hpw] at ha
    · exact ⟨hh, hpw, by simpa [hh, hpw] using ha⟩

-- Helper lemma about the pagination loop.

lemma apiLoop_spec (m : Nat) :
    ∀ (pages : List Page) (acc : List Entry),
      (∀ q ∈ (apiLoop m pages acc).requests, q ≤ 50) ∧
      ((apiLoop m pages acc).reason = StopReason.maxReached →
        m ≤ (apiLoop m pages acc).entries.length) ∧
      ((apiLoop m pages acc).reason = StopReason.emptyItems →
        ∃ p ∈ pages, p.items = []) ∧
      ((apiLoop m pages acc).reason = StopReason.noToken →
        ∃ p ∈ pages, p.hasNext = false) ∧
      ((apiLoop m pages acc).reason = StopReason.providerExhausted →
        (apiLoop m pages acc).requests.length = pages.length) := by
  intro pages
  induction pages with
  | nil =>
    intro acc
    by_cases h : acc.length < m
    · have heq : apiLoop m [] acc = ⟨[], acc, StopReason.providerExhausted⟩ := by
        simp [apiLoop, h]
      rw [heq]
      simp
    · have heq : apiLoop m [] acc = ⟨[], acc, StopReason.maxReached⟩ := by
        simp [apiLoop, h]
      rw [heq]
      simp
      omega
  | cons p rest ih =>
    intro acc
    by_cases hm : acc.length < m
    · by_cases he : p.items.isEmpty = true
      · have heq : apiLoop m (p :: rest) acc
            = ⟨[min (m - acc.length) 50], acc, StopReason.emptyItems⟩ := by
          simp [apiLoop, hm, he]
        rw [heq]
        refine ⟨?_, ?_, ?_, ?_, ?_⟩
        · intro q hq
          simp at hq
          exact hq ▸ Nat.min_le_right _ _
        · intro hr; simp at hr
        · intro _; exact ⟨p, List.mem_cons_self _ _, List.isEmpty_iff.mp he⟩
        · intro hr; simp at hr
        · intro hr; simp at hr
      · by_cases hn : p.hasNext = true
        · have ihr := ih (acc ++ p.items.filterMap apiItemToEntry)
          have heq : apiLoop m (p :: rest) acc
              = addReq (min (m - acc.length) 50)
                  (apiLoop m rest (acc ++ p.items.filterMap apiItemToEntry)) := by
            simp [apiLoop, hm, he, hn]
          rw [heq]
          unfold addReq
          refine ⟨?_, ?_, ?_, ?_, ?_⟩
          · intro q hq
            simp at hq
            rcases hq with hq | hq
            · exact hq ▸ Nat.min_le_right _ _
            · exact ihr.1 q hq
          · intro hr
            exact ihr.2.1 hr
          · intro hr
            obtain ⟨q, hq, hq2⟩ := ihr.2.2.1 hr
            exact ⟨q, List.mem_cons_of_mem _ hq, hq2⟩
          · intro hr
            obtain ⟨q, hq, hq2⟩ := ihr.2.2.2.1 hr
            exact ⟨q, List.mem_cons_of_mem _ hq, hq2⟩
          · intro hr
            simp [ihr.2.2.2.2 hr]
        · have heq : apiLoop m (p :: rest) acc
              = ⟨[min (m - acc.length) 50],
                 acc ++ p.items.filterMap apiItemToEntry, StopReason.noToken⟩ := by
            simp [apiLoop, hm, he, hn]
          rw [heq]
          refine ⟨?_, ?_, ?_, ?_, ?_⟩
          · intro q hq
            simp at hq
            exact hq ▸ Nat.min_le_right _ _
          · intro hr; simp at hr
          · intro hr; simp at hr
          · intro _
            exact ⟨p, List.mem_cons_self _ _, Bool.not_eq_true _ ▸ hn⟩
          · intro hr; simp at hr
    · have heq : apiLoop m (p :: rest) acc = ⟨[], acc, StopReason.maxReached⟩ := by
        simp [apiLoop, hm]
      rw [heq]
      simp
      omega

/-- C1: an item whose id is already in the seen set when it is examined is
skipped before any publish attempt — the loop step leaves the cycle state
completely unchanged — and a monitoring cycle never invokes
`post_to_bluesky` for an id that was in the seen set the cycle started
from. -/
theorem seen_item_never_published (f : String → String → Bool) (entries : List Entry)
    (seen0 : Finset String) (v : String) (st : CycleState) (e : Entry)
    (hv : v ∈ seen0) (he : entryVideoId e ∈ st.seen) :
    v ∉ (check_for_new_videos f entries seen0).published ∧ processEntry f st e = st := by
  constructor
  · unfold check_for_new_videos
    by_cases hemp : entries.isEmpty = true
    · simp [hemp, initState]
    · simp only [hemp, if_false]
      exact (runEntries_keeps f v entries (initState seen0) hv (by simp [initState])).2
  · unfold processEntry
    simp [he]

/-- C1 witness: with `a` already seen, a cycle over an entry list never
publishes `a`, and the step examining an entry with id `a` is the
identity. -/
theorem seen_item_never_published_witness :
    ("a") ∉ (check_for_new_videos alwaysPost [entryV1] (insert ("a") ∅)).published ∧
    processEntry alwaysPost (initState (insert ("a") ∅)) ⟨some ("a"), none, none, none⟩
      = initState (insert ("a") ∅) :=
  seen_item_never_published alwaysPost [entryV1] (insert ("a") ∅) ("a")
    (initState (insert ("a") ∅)) ⟨some ("a"), none, none, none⟩ (by decide) (by decide)

/-- C2: when the publish of an item succeeds, the state immediately after
that item — before the next entry of the same cycle is examined — has the
item's id in the seen set and a `save_seen_videos` call of exactly the new
full set appended to the save log. -/
theorem publish_success_saves_immediately (f : String → String → Bool)
    (front : List Entry) (e : Entry) (seen0 : Finset String)
    (h1 : entryVideoId e ∉ (runEntries f (initState seen0) front).seen)
    (h2 : entryVideoId e ≠ (""))
    (h3 : entryLink e ≠ (""))
    (h4 : f (entryTitle e) (entryLink e) = true) :
    (runEntries f (initState seen0) (front ++ [e])).seen
      = insert (entryVideoId e) (runEntries f (initState seen0) front).seen ∧
    (runEntries f (initState seen0) (front ++ [e])).saves
      = (runEntries f (initState seen0) front).saves
        ++ [insert (entryVideoId e) (runEntries f (initState seen0) front).seen] := by
  rw [runEntries_append f front [e] (initState seen0)]
  show (processEntry f _ e).seen = _ ∧ (processEntry f _ e).saves = _
  unfold processEntry
  simp [h1, h2, h3, h4]

/-- C2 witness: publishing `v1` from an empty seen set adds `v1` and saves
the set containing exactly `v1` at once. -/
theorem publish_success_saves_immediately_witness :
    (runEntries alwaysPost (initState ∅) [entryV1]).seen = insert ("v1") (∅ : Finset String) ∧
    (runEntries alwaysPost (initState ∅) [entryV1]).saves = [insert ("v1") (∅ : Finset String)] :=
  publish_success_saves_immediately alwaysPost [] entryV1 ∅
    (by decide) (by decide) (by decide) (by decide)

/-- C3: when the publish of an item fails, the step examining it changes
neither the seen set nor the save log, and a later cycle whose fetch
returns the item again (here: at the head of its entry list) invokes the
publisher for its id again. -/
theorem publish_failure_retries (f f2 : String → String → Bool)
    (front rest : List Entry) (e : Entry) (seen0 : Finset String)
    (h1 : entryVideoId e ∉ (runEntries f (initState seen0) front).seen)
    (h2 : entryVideoId e ≠ (""))
    (h3 : entryLink e ≠ (""))
    (h4 : f (entryTitle e) (entryLink e) = false) :
    (runEntries f (initState seen0) (front ++ [e])).seen
      = (runEntries f (initState seen0) front).seen ∧
    (runEntries f (initState seen0) (front ++ [e])).saves
      = (runEntries f (initState seen0) front).saves ∧
    entryVideoId e ∈
      (check_for_new_videos f2 (e :: rest)
        (runEntries f (initState seen0) front).seen).published := by
  refine ⟨?_, ?_, ?_⟩
  · rw [runEntries_append f front [e] (initState seen0)]
    show (processEntry f _ e).seen = _
    unfold processEntry
    simp [h1, h2, h3, h4]
  · rw [runEntries_append f front [e] (initState seen0)]
    show (processEntry f _ e).saves = _
    unfold processEntry
    simp [h1, h2, h3, h4]
  · unfold check_for_new_videos
    simp only [List.isEmpty_cons, if_false, Bool.false_eq_true]
    show entryVideoId e ∈ (runEntries f2 (processEntry f2 _ e) rest).published
    refine runEntries_published_mono f2 (entryVideoId e) rest _ ?_
    exact processEntry_invokes f2 _ e (by simpa [initState] using h1) h2 h3

/-- C3 witness: a failed publish of `v1` from the empty seen set leaves the
seen set and save log empty, and the next cycle fetching `v1` again invokes
the publisher for `v1`. -/
theorem publish_failure_retries_witness :
    (runEntries neverPost (initState ∅) [entryV1]).seen = (∅ : Finset String) ∧
    (runEntries neverPost (initState ∅) [entryV1]).saves = [] ∧
    ("v1") ∈ (check_for_new_videos alwaysPost [entryV1] (∅ : Finset String)).published :=
  publish_failure_retries neverPost alwaysPost [] [] entryV1 ∅
    (by decide) (by decide) (by decide) (by decide)

/-- C4 counterexample: saving the set containing `a` to the default store
file performs exactly one file-system action — a direct write of the
serialized set to the store file itself.  No temporary file is written and
no rename occurs, so the claimed write-then-rename atomicity is absent. -/
theorem save_no_rename_counterexample :
    save_seen_videos ("youtube_bluesky_seen.json") [("a")]
      = [FsAction.write ("youtube_bluesky_seen.json") [("a")]] ∧
    (save_seen_videos ("youtube_bluesky_seen.json") [("a")]).all
      (fun a => !a.isRename) = true := by
  decide

/-- C4 amended: `save_seen_videos` overwrites the store file in place with
the serialized full set in a single direct write; it uses no temporary file
and no rename. -/
theorem save_direct_write (seen_file : String) (seen_videos : List String) :
    save_seen_videos seen_file seen_videos = [FsAction.write seen_file seen_videos] := rfl

/-- C5 counterexample: a store file holding valid JSON that is not a list
(for example the object `\x7b\x7d`) is malformed store content — the store
format is a JSON array of strings — yet `load_seen_videos` returns the
empty set without renaming the file aside. -/
theorem load_malformed_no_rename_counterexample :
    load_seen_videos ("youtube_bluesky_seen.json") StoreContent.jsonOther = (∅, []) := by
  decide

/-- C5 amended: `load_seen_videos` fails soft — a missing file yields the
empty set; invalid-JSON content yields the empty set after renaming the
file aside to `<file>.corrupt.bak`; valid JSON that is not a list yields
the empty set with no rename; a JSON list yields the set of its elements;
only invalid JSON ever triggers a file-system action. -/
theorem load_fails_soft (seen_file : String) (c : StoreContent) :
    (c ≠ StoreContent.invalidJson → (load_seen_videos seen_file c).2 = []) ∧
    load_seen_videos seen_file StoreContent.missing = (∅, []) ∧
    load_seen_videos seen_file StoreContent.invalidJson
      = (∅, [FsAction.rename seen_file (seen_file ++ (".corrupt.bak"))]) ∧
    load_seen_videos seen_file StoreContent.jsonOther = (∅, []) ∧
    (∀ xs, load_seen_videos seen_file (StoreContent.jsonList xs) = (xs.toFinset, [])) := by
  refine ⟨?_, rfl, rfl, rfl, fun xs => rfl⟩
  intro hc
  cases c with
  | missing => rfl
  | invalidJson => exact absurd rfl hc
  | jsonList xs => rfl
  | jsonOther => rfl

/-- C5 witness: loading a list store file performs no file-system action. -/
theorem load_fails_soft_witness :
    (load_seen_videos ("seen.json") (StoreContent.jsonList [("a"), ("a"), ("b")])).2 = [] :=
  (load_fails_soft ("seen.json") (StoreContent.jsonList [("a"), ("a"), ("b")])).1 (by decide)

/-- C8: bulk registration over a fetch returning exactly the items `v1` and
`v2`, starting from the empty seen set, persists exactly one store whose
set of ids is `\x7bv1, v2\x7d` and invokes the publisher zero times. -/
theorem bulk_registration_v1_v2 :
    (build_database [entryV1, entryV2] ∅).saves
      = [insert ("v1") (insert ("v2") (∅ : Finset String))] ∧
    (build_database [entryV1, entryV2] ∅).seen
      = insert ("v1") (insert ("v2") (∅ : Finset String)) ∧
    (build_database [entryV1, entryV2] ∅).published = [] := by
  decide

/-- C10: the seen set only grows — a monitoring cycle and a bulk
registration both return a seen set containing the input set, and every set
they pass to `save_seen_videos` contains the input set. -/
theorem seen_set_only_grows (f : String → String → Bool) (entries : List Entry)
    (seen0 : Finset String) :
    (seen0 ⊆ (check_for_new_videos f entries seen0).seen ∧
     ∀ s ∈ (check_for_new_videos f entries seen0).saves, seen0 ⊆ s) ∧
    (seen0 ⊆ (build_database entries seen0).seen ∧
     ∀ s ∈ (build_database entries seen0).saves, seen0 ⊆ s) := by
  constructor
  · unfold check_for_new_videos
    by_cases hemp : entries.isEmpty = true
    · simp [hemp, initState]
    · simp only [hemp, if_false, Bool.false_eq_true]
      constructor
      · exact runEntries_seen_mono f entries (initState seen0)
      · intro s hs
        rcases runEntries_saves_sup f entries (initState seen0) s hs with h | h
        · simp [initState] at h
        · exact h
  · unfold build_database
    by_cases hemp : entries.isEmpty = true
    · simp [hemp]
    · simp only [hemp, if_false, Bool.false_eq_true]
      constructor
      · exact buildLoop_seen_mono entries ⟨seen0, [], []⟩
      · intro s hs
        simp only [List.mem_append] at hs
        rcases hs with h | h
        · rw [buildLoop_saves_eq entries ⟨seen0, [], []⟩] at h
          simp at h
        · simp only [List.mem_singleton] at h
          exact h ▸ buildLoop_seen_mono entries ⟨seen0, [], []⟩

/-- C10 witness: with `a` already seen, both the cycle result and the saved
store of a concrete run contain `a`. -/
theorem seen_set_only_grows_witness :
    (insert ("a") (∅ : Finset String))
      ⊆ (check_for_new_videos alwaysPost [entryV1] (insert ("a") ∅)).seen ∧
    (insert ("a") (∅ : Finset String)) ⊆ insert ("v1") (insert ("a") ∅) :=
  ⟨(seen_set_only_grows alwaysPost [entryV1] (insert ("a") ∅)).1.1,
   (seen_set_only_grows alwaysPost [entryV1] (insert ("a") ∅)).1.2
     (insert ("v1") (insert ("a") ∅)) (by decide)⟩

/-- C6: `post_to_bluesky` returns `True` exactly when authentication passed
and the submission was performed and succeeded; the outcome of the
thumbnail-resolution step never changes the returned value (any two
environments agreeing on everything but the network environment return the
same boolean), and when thumbnail resolution yields nothing the post is
submitted without an image. -/
theorem publish_result_iff_auth_and_send (env env2 : PublishEnv) (t u : String)
    (eh : env2.handle = env.handle) (ep : env2.password = env.password)
    (et : env2.post_template = env.post_template) (el : env2.loginOk = env.loginOk)
    (es : env2.sendPostOk = env.sendPostOk) :
    ((post_to_bluesky env t u).success = true ↔
      (authB env = true ∧ (post_to_bluesky env t u).sent.isSome = true ∧
       env.sendPostOk = true)) ∧
    (post_to_bluesky env2 t u).success = (post_to_bluesky env t u).success ∧
    (get_video_thumbnail env.net u = none →
      (post_to_bluesky env t u).sent.all (fun p => !p.hasThumb) = true) := by
  unfold post_to_bluesky authB postAfterRender
  rw [eh, ep, et, el, es]
  by_cases hh : env.handle = ("")
  · simp [hh]
  · by_cases hpw : env.password = ("")
    · simp [hh, hpw]
    · by_cases hl : env.loginOk = true
      · cases hr : renderTemplate t u env.post_template with
        | ok s => simp [hh, hpw, hl, hr]
        | error err =>
          cases err with
          | keyError n => simp [hh, hpw, hl, hr]
          | indexError => simp [hh, hpw, hl, hr]
      · simp [hh, hpw, hl]

/-- C6 witness: changing only the thumbnail network environment leaves the
returned boolean unchanged, and with no resolvable thumbnail the submitted
post carries no image. -/
theorem publish_result_iff_auth_and_send_witness :
    (post_to_bluesky envTitleAltNet ("T") ("U")).success
      = (post_to_bluesky envTitle ("T") ("U")).success ∧
    (post_to_bluesky envTitle ("T") ("U")).sent.all (fun p => !p.hasThumb) = true :=
  ⟨(publish_result_iff_auth_and_send envTitle envTitleAltNet ("T") ("U")
      rfl rfl rfl rfl rfl).2.1,
   (publish_result_iff_auth_and_send envTitle envTitleAltNet ("T") ("U")
      rfl rfl rfl rfl rfl).2.2 (by decide)⟩

/-- C7 counterexample: the template consisting of the positional
placeholder `\x7b0\x7d` — a placeholder other than `\x7btitle\x7d` and
`\x7burl\x7d` — fails the publish call: with valid credentials, a
successful login and a submission that would succeed, `post_to_bluesky`
returns `False` and submits nothing, because Python `str.format` raises
`IndexError` for it, which the `except KeyError` fallback does not
catch. -/
theorem positional_placeholder_fails_publish_counterexample :
    (post_to_bluesky envPosTemplate ("T") ("U")).success = false ∧
    (post_to_bluesky envPosTemplate ("T") ("U")).sent = none ∧
    authB envPosTemplate = true ∧ envPosTemplate.sendPostOk = true := by
  decide

/-- C7 amended: for every template whose placeholders beyond
`\x7btitle\x7d` and `\x7burl\x7d` are named placeholders (and which
contains no positional placeholder), rendering does not fail the publish
call — the publisher falls back to the fixed default text and proceeds to
submit. -/
theorem unknown_named_placeholder_falls_back (env : PublishEnv) (t u : String)
    (ha : authB env = true)
    (hnopos : env.post_template.any TItem.isPos = false)
    (hunknown : env.post_template.any TItem.isUnknownField = true) :
    post_to_bluesky env t u
      = ⟨env.sendPostOk, some ⟨fallbackText t, (get_video_thumbnail env.net u).isSome⟩⟩ := by
  obtain ⟨hh, hpw, hl⟩ := authB_parts env ha
  obtain ⟨n, hr⟩ := renderTemplate_unknown t u env.post_template hnopos hunknown
  unfold post_to_bluesky postAfterRender
  simp [hh, hpw, hl, hr]

/-- C7 amended witness: with the unknown named placeholder `\x7bfoo\x7d`
the publisher submits the fallback text and succeeds. -/
theorem unknown_named_placeholder_falls_back_witness :
    post_to_bluesky envUnknownField ("T") ("U")
      = ⟨true, some ⟨fallbackText ("T"), false⟩⟩ :=
  unknown_named_placeholder_falls_back envUnknownField ("T") ("U")
    (by decide) (by decide) (by decide)

/-- C9 counterexample: with a configured maximum of 5 and a provider whose
first response has no items but does carry a next-page token, the fetch
loop stops after the first request with nothing accumulated — although the
accumulated count (0) has not reached the maximum and the response carried
a next-page token, contradicting that the loop stops exactly on those two
conditions. -/
theorem pagination_stops_on_empty_page_counterexample :
    (get_youtube_feed_api 5 [emptyPage, lastPage]).reason = StopReason.emptyItems ∧
    (get_youtube_feed_api 5 [emptyPage, lastPage]).requests.length = 1 ∧
    (get_youtube_feed_api 5 [emptyPage, lastPage]).entries.length < 5 ∧
    emptyPage.hasNext = true ∧
    [emptyPage, lastPage].length = 2 := by
  decide

/-- C9 amended: every page request asks for at most 50 items, and the loop
stops accumulating when the accumulated count reaches the configured
maximum, when a response carries no next-page token, or additionally when a
response carries an empty item list (even with a next-page token present);
it returns the items accumulated so far.  Stopping for `maxReached` implies
the maximum was reached; stopping for `emptyItems` or `noToken` exhibits a
page with empty items or without a token; the `providerExhausted` reason is
the model artifact of a finite page list and means every supplied page was
consumed. -/
theorem pagination_bounds_and_stop (api_max_results : Int) (pages : List Page) :
    (∀ q ∈ (get_youtube_feed_api api_max_results pages).requests, q ≤ 50) ∧
    ((get_youtube_feed_api api_max_results pages).reason = StopReason.maxReached →
      (if api_max_results < 1 then 15 else api_max_results.toNat)
        ≤ (get_youtube_feed_api api_max_results pages).entries.length) ∧
    ((get_youtube_feed_api api_max_results pages).reason = StopReason.emptyItems →
      ∃ p ∈ pages, p.items = []) ∧
    ((get_youtube_feed_api api_max_results pages).reason = StopReason.noToken →
      ∃ p ∈ pages, p.hasNext = false) ∧
    ((get_youtube_feed_api api_max_results pages).reason = StopReason.providerExhausted →
      (get_youtube_feed_api api_max_results pages).requests.length = pages.length) := by
  unfold get_youtube_feed_api
  exact apiLoop_spec _ pages []

/-- C9 amended witness: a provider with one item-bearing page and a large
maximum consumes every supplied page. -/
theorem pagination_bounds_and_stop_witness :
    (get_youtube_feed_api 100 [onePageMore]).requests.length = [onePageMore].length :=
  (pagination_bounds_and_stop 100 [onePageMore]).2.2.2.2 (by decide)

end SkyTube
